import Mathlib

set_option maxRecDepth 10000

/-!
Verification development for the BLACKGIFT AI chat backend (server.js).

Shallow embedding of the server's data model and operations:
* token estimation (countTokensForContent / countTokensForMessagesArray),
  parametrized by the external gpt-3-encoder via an arbitrary function
  enc : String → Nat giving the encoded length of a text;
* the trimming engine (trimMessagesByTokenBudget), with its eviction loop
  modelled as structural recursion on the non-system tail;
* the Firestore document store (one Option FireDoc per uid), its helpers
  loadUserHistory / saveUserHistory / addUserTokenUsage, where Firestore
  merge-set semantics is modelled field by field;
* the session store and buildConversation;
* the /api/chat and /api/reset request handlers, with the fallibility of
  the external completion service and of the persistence writes made
  explicit in a ChatEffects record (a failed await raises to the
  surrounding catch, which answers 500 and stops the handler).
-/

/-- Role of a chat message: the JS code uses the strings
'system', 'user', 'assistant'. -/
inductive Role where
  | system
  | user
  | assistant
deriving DecidableEq, Repr

/-- Chat message as stored in histories: role, content, and an optional
timestamp field ts (some stored messages lack ts, e.g. the seed returned
by loadUserHistory for a fresh document). -/
structure Message where
  role : Role
  content : String
  ts : Option Nat
deriving DecidableEq, Repr

/-- Usage counter sub-document: token_usage = { total, last_updated }. -/
structure UsageRec where
  total : Nat
  last_updated : Nat
deriving DecidableEq, Repr

/-- Firestore document in collection user_histories: every field is
optional, matching the dynamic document shape (merge writes may leave
fields absent). -/
structure FireDoc where
  history : Option (List Message)
  total_tokens : Option Nat
  token_usage : Option UsageRec
  updated_at : Option Nat
deriving DecidableEq, Repr

/-- The Firestore collection: one optional document per uid. -/
abbrev FireStore := String → Option FireDoc

/-- Express session fields used by the server: req.session.history and
req.session.history_total_tokens, both absent until first seeded. -/
structure Session where
  history : Option (List Message)
  history_total_tokens : Option Nat
deriving DecidableEq, Repr

/-- Combined mutable state visible to a request handler. -/
structure SrvState where
  fs : FireStore
  session : Session

/-- Which store buildConversation decided to persist to
('firestore' or 'session' in the JS). -/
inductive PersistTarget where
  | firestore
  | session
deriving DecidableEq, Repr

/-- Result of buildConversation: the trimmed messages, their token count,
the persistence target and the uid when authenticated. -/
structure BuildResult where
  messages : List Message
  totalTokens : Nat
  persistsTo : PersistTarget
  uid : Option String
deriving Repr

/-- JSON value for the request body's message field, used to model the
dynamic typing of req.body.message. -/
inductive JValue where
  | jnull
  | jbool (b : Bool)
  | jnum (n : Int)
  | jstr (s : String)
  | jobj
  | jarr
deriving DecidableEq, Repr

/-- HTTP response model: status code, the error field of the JSON body
when present, and the reply / message text when present. -/
structure Resp where
  status : Nat
  error : Option String
  reply : Option String
deriving DecidableEq, Repr

/-- Outcomes of the external calls made by the /api/chat handler: the
completion-service call (Except: a rejected promise carries an error; a
fulfilled one carries the optional message content), and whether each of
the two Firestore persistence writes succeeds. -/
structure ChatEffects where
  completion : Except String (Option String)
  saveOk : Bool
  addUsageOk : Bool

/-- System prompt constant of server.js (APP_NAME interpolated). -/
def SYSTEM_PROMPT : String :=
  "Ndiri mubatsiri weBLACKGIFT AI. Gara uchipindura muChiShona (Shona) chete. Kana mushandisi akakumbira kuchinja mutauro, bvunza mubvunzo muChiShona kuti uverenge kana vachida kuchinja. Shandisa mutauro unonzwisisika, wakapfava, uye unoenderana nemamiriro emubvunzo."

/-- Fallback assistant reply used when the completion content is falsy. -/
def fallbackReply : String := "Handina kupindura zvakanaka. Edza zvakare."

/-- JS expression (x || d) for an optional number x: absent or 0 is falsy. -/
def jsOrNat : Option Nat → Nat → Nat
  | some t, d => if t = 0 then d else t
  | none, d => d

/-- JS expression (x || d) for an optional string x: absent or empty is falsy. -/
def jsOrStr : Option String → String → String
  | some s, d => if s = "" then d else s
  | none, d => d

/-- JS truthiness of a JSON value. -/
def jsTruthy : JValue → Bool
  | JValue.jnull => false
  | JValue.jbool b => b
  | JValue.jnum n => n != 0
  | JValue.jstr s => s != ""
  | JValue.jobj => true
  | JValue.jarr => true

/-- Whether a JSON value is a string. -/
def isJStr : JValue → Bool
  | JValue.jstr _ => true
  | _ => false

/-- Model of String.prototype.trim: strip leading and trailing whitespace. -/
def jsTrim (s : String) : String :=
  ⟨((s.data.dropWhile Char.isWhitespace).reverse.dropWhile Char.isWhitespace).reverse⟩

/-- countTokensForContent of server.js: 0 for falsy (empty) text,
otherwise the encoder length (the encoder is the parameter enc; the
character-count fallback only fires when the encoder throws, which the
pure model has no way to do). -/
def countTokensForContent (enc : String → Nat) (text : String) : Nat :=
  if text = "" then 0 else enc text

/-- countTokensForMessagesArray of server.js: left fold adding
content tokens + 4 per message, plus 2 for the conversation. -/
def countTokensForMessagesArray (enc : String → Nat) (messages : List Message) : Nat :=
  (messages.foldl (fun total m => total + (countTokensForContent enc m.content + 4)) 0) + 2

/-- Eviction loop of trimMessagesByTokenBudget: while rest is non-empty
and total exceeds the budget, shift the oldest non-system message and
recount over system :: rest. -/
def trimLoop (enc : String → Nat) (maxTokens : Nat) (sys : Message) :
    List Message → Nat → List Message × Nat
  | [], total => ([], total)
  | m :: rest, total =>
    if total ≤ maxTokens then (m :: rest, total)
    else trimLoop enc maxTokens sys rest (countTokensForMessagesArray enc (sys :: rest))

/-- trimMessagesByTokenBudget of server.js. An empty (or missing) list is
seeded with the bare system message, reported with its content-only token
count; otherwise, if the full count fits the budget the list is returned
unchanged, else oldest non-system messages are evicted FIFO. -/
def trimMessagesByTokenBudget (enc : String → Nat) (messages : List Message)
    (maxTokens : Nat) : List Message × Nat :=
  match messages with
  | [] => ([⟨Role.system, SYSTEM_PROMPT, none⟩], countTokensForContent enc SYSTEM_PROMPT)
  | sys :: rest =>
    let total := countTokensForMessagesArray enc (sys :: rest)
    if total ≤ maxTokens then (sys :: rest, total)
    else
      let r := trimLoop enc maxTokens sys rest total
      (sys :: r.1, r.2)

/-- Pointwise update of the Firestore collection at one uid. -/
def updFS (fs : FireStore) (uid : String) (d : FireDoc) : FireStore :=
  fun u => if u = uid then some d else fs u

/-- loadUserHistory of server.js: fetch-or-lazily-create the per-user
document. On a miss it writes a seeded document (history with a ts,
total_tokens, a zeroed token_usage, updated_at) and returns a ts-less
seed history; on a hit it returns the stored history and count with
JS-falsy defaulting. -/
def loadUserHistory (enc : String → Nat) (uid : String) (now : Nat) (fs : FireStore) :
    FireStore × (List Message × Nat) :=
  match fs uid with
  | none =>
    let seeded : FireDoc :=
      { history := some [⟨Role.system, SYSTEM_PROMPT, some now⟩]
        total_tokens := some (countTokensForContent enc SYSTEM_PROMPT)
        token_usage := some ⟨0, now⟩
        updated_at := some now }
    (updFS fs uid seeded,
      ([⟨Role.system, SYSTEM_PROMPT, none⟩], countTokensForContent enc SYSTEM_PROMPT))
  | some data =>
    (fs, (data.history.getD [⟨Role.system, SYSTEM_PROMPT, none⟩], data.total_tokens.getD 0))

/-- saveUserHistory of server.js: merge-set of history (each message
given ts via m.ts || Date.now()), total_tokens and updated_at; the merge
leaves token_usage as it was (absent if the document did not exist). -/
def saveUserHistory (uid : String) (history : List Message) (total_tokens now : Nat)
    (fs : FireStore) : FireStore :=
  let stored := history.map (fun m => (⟨m.role, m.content, some (jsOrNat m.ts now)⟩ : Message))
  let prev := fs uid
  updFS fs uid
    { history := some stored
      total_tokens := some total_tokens
      token_usage := prev.bind (fun d => d.token_usage)
      updated_at := some now }

/-- addUserTokenUsage of server.js: one atomic Firestore transaction that
reads the current counter (data.token_usage?.total || 0) and merge-sets
token_usage to the incremented value, leaving the other fields as read. -/
def addUserTokenUsage (uid : String) (tokensUsed now : Nat) (fs : FireStore) : FireStore :=
  let snap := fs uid
  let current := ((snap.bind (fun d => d.token_usage)).map (fun u => u.total)).getD 0
  updFS fs uid
    { history := snap.bind (fun d => d.history)
      total_tokens := snap.bind (fun d => d.total_tokens)
      token_usage := some ⟨current + tokensUsed, now⟩
      updated_at := snap.bind (fun d => d.updated_at) }

/-- Usage counter as the code reads it: token_usage?.total || 0. -/
def getUsage (fs : FireStore) (uid : String) : Nat :=
  (((fs uid).bind (fun d => d.token_usage)).map (fun u => u.total)).getD 0

/-- ensureAnonHistory of server.js: seed the session history and its
token count when the session has no history array yet. -/
def ensureAnonHistory (enc : String → Nat) (now : Nat) (s : Session) : Session :=
  match s.history with
  | none =>
    ⟨some [⟨Role.system, SYSTEM_PROMPT, some now⟩],
      some (countTokensForContent enc SYSTEM_PROMPT)⟩
  | some _ => s

/-- Truthiness test req.user && req.user.uid && firestore selecting the
durable path: an authenticated non-empty uid and a configured Firestore. -/
def isAuthed : Option String → Bool → Bool
  | some uid, hasFS => if uid = "" then false else hasFS
  | none, _ => false

/-- buildConversation of server.js. Durable path: load (which may lazily
seed), re-stamp ts via h.ts || Date.now(), append the user message, trim.
Session path: ensure the seed, append the user message, trim, and write
the trimmed history and count back into the session. -/
def buildConversation (enc : String → Nat) (maxTok : Nat) (user : Option String)
    (hasFS : Bool) (userMessage : String) (now : Nat) (st : SrvState) :
    SrvState × BuildResult :=
  if isAuthed user hasFS then
    let uid := user.getD ""
    let p := loadUserHistory enc uid now st.fs
    let history :=
      (p.2.1.map (fun h => (⟨h.role, h.content, some (jsOrNat h.ts now)⟩ : Message)))
        ++ [⟨Role.user, userMessage, some now⟩]
    let r := trimMessagesByTokenBudget enc history maxTok
    ({ st with fs := p.1 }, ⟨r.1, r.2, PersistTarget.firestore, some uid⟩)
  else
    let s := ensureAnonHistory enc now st.session
    let h := s.history.getD [] ++ [⟨Role.user, userMessage, some now⟩]
    let r := trimMessagesByTokenBudget enc h maxTok
    ({ st with session := ⟨some r.1, some r.2⟩ }, ⟨r.1, r.2, PersistTarget.session, none⟩)

/-- JS expression (req.body?.message || '').trim() of the chat handler: a
missing body or field is undefined (falsy), a falsy field becomes the
empty string, and calling .trim() on a non-string throws a TypeError. -/
def extractMessage (body : Option JValue) : Except String String :=
  let v := body.getD JValue.jnull
  let w := if jsTruthy v then v else JValue.jstr ""
  match w with
  | JValue.jstr s => Except.ok (jsTrim s)
  | _ => Except.error "TypeError: trim is not a function"

/-- Session-path persistence of the chat handler: ensure the seed, append
the assistant reply, trim, and store the trimmed history and count. -/
def chatPersistSession (enc : String → Nat) (maxTok : Nat) (assistantText : String)
    (now : Nat) (st : SrvState) : SrvState :=
  let s := ensureAnonHistory enc now st.session
  let h := s.history.getD [] ++ [⟨Role.assistant, assistantText, some now⟩]
  let r := trimMessagesByTokenBudget enc h maxTok
  { st with session := ⟨some r.1, some r.2⟩ }

/-- Durable-path persistence of the chat handler: reload, append the user
and assistant messages, trim, then sequentially await saveUserHistory and
addUserTokenUsage. A failed await performs no write of its own and aborts
the steps after it; the Bool reports whether every step succeeded. -/
def chatPersistFirestore (enc : String → Nat) (maxTok : Nat)
    (uid userMessage assistantText : String) (totalRequestTokens now : Nat)
    (saveOk addUsageOk : Bool) (fs : FireStore) : FireStore × Bool :=
  let p := loadUserHistory enc uid now fs
  let history := p.2.1
    ++ [⟨Role.user, userMessage, some now⟩, ⟨Role.assistant, assistantText, some now⟩]
  let r := trimMessagesByTokenBudget enc history maxTok
  if saveOk then
    let fs3 := saveUserHistory uid r.1 r.2 now p.1
    if addUsageOk then (addUserTokenUsage uid totalRequestTokens now fs3, true)
    else (fs3, false)
  else (p.1, false)

/-- POST /api/chat handler of server.js. Any exception inside the try
block (TypeError from .trim(), completion failure, persistence failure)
reaches the catch, which answers 500 with error 'Failed to process chat';
an empty extracted message answers 400 before any other step. -/
def chatHandler (enc : String → Nat) (maxTok : Nat) (eff : ChatEffects)
    (user : Option String) (hasFS : Bool) (body : Option JValue) (now : Nat)
    (st : SrvState) : SrvState × Resp :=
  match extractMessage body with
  | Except.error _ => (st, ⟨500, some "Failed to process chat", none⟩)
  | Except.ok userMessage =>
    if userMessage = "" then (st, ⟨400, some "message is required", none⟩)
    else
      let p := buildConversation enc maxTok user hasFS userMessage now st
      match eff.completion with
      | Except.error _ => (p.1, ⟨500, some "Failed to process chat", none⟩)
      | Except.ok contentOpt =>
        let assistantText := jsOrStr contentOpt fallbackReply
        let openaiMessages := p.2.messages.map (fun m => (⟨m.role, m.content, none⟩ : Message))
        let promptTokens := countTokensForMessagesArray enc openaiMessages
        let completionTokens := countTokensForContent enc assistantText
        let totalRequestTokens := promptTokens + completionTokens
        match p.2.persistsTo, p.2.uid with
        | PersistTarget.firestore, some uid =>
          if uid = "" then
            (chatPersistSession enc maxTok assistantText now p.1,
              ⟨200, none, some assistantText⟩)
          else
            let q := chatPersistFirestore enc maxTok uid userMessage assistantText
              totalRequestTokens now eff.saveOk eff.addUsageOk p.1.fs
            if q.2 then ({ p.1 with fs := q.1 }, ⟨200, none, some assistantText⟩)
            else ({ p.1 with fs := q.1 }, ⟨500, some "Failed to process chat", none⟩)
        | _, _ =>
          (chatPersistSession enc maxTok assistantText now p.1,
            ⟨200, none, some assistantText⟩)

/-- POST /api/reset handler of server.js: durable path saves the bare
seed history with its content-only token count; session path overwrites
the session history with a stamped seed. -/
def resetHandler (enc : String → Nat) (user : Option String) (hasFS : Bool)
    (now : Nat) (st : SrvState) : SrvState × Resp :=
  if isAuthed user hasFS then
    let uid := user.getD ""
    let fs2 := saveUserHistory uid [⟨Role.system, SYSTEM_PROMPT, none⟩]
      (countTokensForContent enc SYSTEM_PROMPT) now st.fs
    ({ st with fs := fs2 }, ⟨200, none, some "User history reset."⟩)
  else
    ({ st with session := ⟨some [⟨Role.system, SYSTEM_PROMPT, some now⟩],
        some (countTokensForContent enc SYSTEM_PROMPT)⟩ },
      ⟨200, none, some "Session history reset."⟩)

/-- Constant token estimator used for concrete witnesses. -/
def encOne : String → Nat := fun _ => 1

/-- Concrete stored document used by witnesses and counterexamples (a
short system message keeps concrete evaluation small). -/
def cexDoc : FireDoc :=
  { history := some [⟨Role.system, "sys", some 1⟩]
    total_tokens := some 1
    token_usage := some ⟨7, 1⟩
    updated_at := some 1 }

/-- Concrete server state holding cexDoc under uid u. -/
def cexState : SrvState :=
  ⟨fun u => if u = "u" then some cexDoc else none, ⟨none, none⟩⟩

/-- Concrete server state with no documents and a fresh session. -/
def anonState : SrvState :=
  ⟨fun _ => none, ⟨none, none⟩⟩

/- ------------------ helper lemmas on token counting ------------------ -/

/-- Folding the per-message count from initial accumulator a just adds a. -/
theorem foldl_count_init (enc : String → Nat) (l : List Message) (a : Nat) :
    l.foldl (fun total m => total + (countTokensForContent enc m.content + 4)) a
      = a + l.foldl (fun total m => total + (countTokensForContent enc m.content + 4)) 0 := by
  induction l generalizing a with
  | nil => simp
  | cons m ms ih =>
    simp only [List.foldl_cons]
    rw [ih, ih (0 + (countTokensForContent enc m.content + 4))]
    omega

/-- A one-message list never counts more than the same head with a tail. -/
theorem cArr_head_le (enc : String → Nat) (h : Message) (rest : List Message) :
    countTokensForMessagesArray enc [h] ≤ countTokensForMessagesArray enc (h :: rest) := by
  simp only [countTokensForMessagesArray, List.foldl_cons, List.foldl_nil]
  rw [foldl_count_init]
  omega

/-- When the system message alone fits the budget, the eviction loop ends
at or under the budget. -/
theorem trimLoop_le (enc : String → Nat) (B : Nat) (h : Message)
    (hle : countTokensForMessagesArray enc [h] ≤ B) :
    ∀ rest : List Message,
      (trimLoop enc B h rest (countTokensForMessagesArray enc (h :: rest))).2 ≤ B := by
  intro rest
  induction rest with
  | nil => simpa [trimLoop] using hle
  | cons m rs ih =>
    by_cases hc : countTokensForMessagesArray enc (h :: m :: rs) ≤ B
    · simpa [trimLoop, hc] using hc
    · simpa [trimLoop, hc] using ih

/-- When even the system message alone exceeds the budget, the loop
evicts every non-system message and reports the bare system count. -/
theorem trimLoop_evict_all (enc : String → Nat) (B : Nat) (h : Message)
    (hgt : B < countTokensForMessagesArray enc [h]) :
    ∀ rest : List Message,
      trimLoop enc B h rest (countTokensForMessagesArray enc (h :: rest))
        = ([], countTokensForMessagesArray enc [h]) := by
  intro rest
  induction rest with
  | nil => simp [trimLoop]
  | cons m rs ih =>
    have hc : ¬ countTokensForMessagesArray enc (h :: m :: rs) ≤ B := by
      have := cArr_head_le enc h (m :: rs)
      omega
    simpa [trimLoop, hc] using ih

/-- The eviction loop only ever drops a prefix of the tail: its surviving
list is a drop of the input. -/
theorem trimLoop_suffix (enc : String → Nat) (B : Nat) (h : Message) :
    ∀ (rest : List Message) (total : Nat),
      ∃ k, k ≤ rest.length ∧ (trimLoop enc B h rest total).1 = rest.drop k := by
  intro rest
  induction rest with
  | nil => intro total; exact ⟨0, by simp [trimLoop]⟩
  | cons m rs ih =>
    intro total
    by_cases hc : total ≤ B
    · exact ⟨0, by simp [trimLoop, hc]⟩
    · obtain ⟨k, hk, hres⟩ := ih (countTokensForMessagesArray enc (h :: rs))
      refine ⟨k + 1, by simpa using Nat.succ_le_succ hk, ?_⟩
      simpa [trimLoop, hc] using hres

/- ------------------ claim theorems on the trimming engine ------------------ -/

/-- C1: for every non-empty history whose head has role system and every
budget, trimming keeps that head at index 0 — the system message is never
evicted or reordered. -/
theorem trim_preserves_system_head (enc : String → Nat) (B : Nat) (h : Message)
    (t : List Message) (hrole : h.role = Role.system) :
    ((trimMessagesByTokenBudget enc (h :: t) B).1).head? = some h := by
  by_cases hc : countTokensForMessagesArray enc (h :: t) ≤ B
  · simp [trimMessagesByTokenBudget, hc]
  · simp [trimMessagesByTokenBudget, hc]

/-- Witness for trim_preserves_system_head at a concrete system-headed list. -/
theorem trim_preserves_system_head_wit :
    ((trimMessagesByTokenBudget (fun s => s.length)
        [⟨Role.system, "abc", none⟩, ⟨Role.user, "hi", none⟩] 5).1).head?
      = some ⟨Role.system, "abc", none⟩ :=
  trim_preserves_system_head (fun s => s.length) 5 ⟨Role.system, "abc", none⟩
    [⟨Role.user, "hi", none⟩] rfl

/-- C2: trim terminates (it is a total function by construction), and for
a non-empty history, (a) whenever the budget is at least the estimate of
the system message alone (countTokensForMessagesArray over the
one-message list, the reading fixed by the spec's 12-token example), the
reported output count is ≤ B; (b) when the budget is below that
estimate, the output is exactly the singleton system list with its true
over-budget count. -/
theorem trim_budget_convergence (enc : String → Nat) (B : Nat) (h : Message)
    (t : List Message) :
    (countTokensForMessagesArray enc [h] ≤ B →
        (trimMessagesByTokenBudget enc (h :: t) B).2 ≤ B)
    ∧ (B < countTokensForMessagesArray enc [h] →
        trimMessagesByTokenBudget enc (h :: t) B
          = ([h], countTokensForMessagesArray enc [h])) := by
  constructor
  · intro hle
    by_cases hc : countTokensForMessagesArray enc (h :: t) ≤ B
    · simpa [trimMessagesByTokenBudget, hc] using hc
    · simpa [trimMessagesByTokenBudget, hc] using trimLoop_le enc B h hle t
  · intro hgt
    have hc : ¬ countTokensForMessagesArray enc (h :: t) ≤ B := by
      have := cArr_head_le enc h t
      omega
    simp [trimMessagesByTokenBudget, hc, trimLoop_evict_all enc B h hgt t]

/-- Witness for trim_budget_convergence: both branches exercised at
concrete inputs (a 3-char system message counts 3 + 4 + 2 = 9). -/
theorem trim_budget_convergence_wit :
    (trimMessagesByTokenBudget (fun s => s.length) [⟨Role.system, "sys", none⟩] 20).2 ≤ 20
    ∧ trimMessagesByTokenBudget (fun s => s.length)
        [⟨Role.system, "sys", none⟩, ⟨Role.user, "hello", none⟩] 3
      = ([⟨Role.system, "sys", none⟩],
          countTokensForMessagesArray (fun s => s.length) [⟨Role.system, "sys", none⟩]) :=
  ⟨(trim_budget_convergence (fun s => s.length) 20 ⟨Role.system, "sys", none⟩ []).1
      (by decide),
   (trim_budget_convergence (fun s => s.length) 3 ⟨Role.system, "sys", none⟩
      [⟨Role.user, "hello", none⟩]).2 (by decide)⟩

/-- C6 counterexample: the claim quantifies over every message list, but
on the empty list with budget 2 (and estimateMessages([]) = 2 ≤ 2) trim
does not return the list unchanged with its estimate — it returns the
freshly seeded system singleton instead. -/
theorem trim_empty_not_identity_cex :
    countTokensForMessagesArray (fun _ => 1) [] ≤ 2
    ∧ trimMessagesByTokenBudget (fun _ => 1) [] 2
        ≠ (([] : List Message), countTokensForMessagesArray (fun _ => 1) []) := by
  constructor
  · decide
  · decide

/-- C6 amended: for every NON-EMPTY message list within budget, trimming
is the identity and reports the estimate. -/
theorem trim_noop_under_budget (enc : String → Nat) (B : Nat) (h : Message)
    (t : List Message) (hle : countTokensForMessagesArray enc (h :: t) ≤ B) :
    trimMessagesByTokenBudget enc (h :: t) B
      = (h :: t, countTokensForMessagesArray enc (h :: t)) := by
  simp [trimMessagesByTokenBudget, hle]

/-- Witness for trim_noop_under_budget at a concrete in-budget list. -/
theorem trim_noop_under_budget_wit :
    trimMessagesByTokenBudget (fun s => s.length)
        [⟨Role.system, "sys", none⟩, ⟨Role.user, "hi", none⟩] 50
      = ([⟨Role.system, "sys", none⟩, ⟨Role.user, "hi", none⟩],
          countTokensForMessagesArray (fun s => s.length)
            [⟨Role.system, "sys", none⟩, ⟨Role.user, "hi", none⟩]) :=
  trim_noop_under_budget (fun s => s.length) 50 ⟨Role.system, "sys", none⟩
    [⟨Role.user, "hi", none⟩] (by decide)

/-- C7: eviction is FIFO from the front of the tail: the trimmed result
is the head followed by a suffix (drop k) of the original tail, so the
evicted messages are exactly the prefix take k — every retained
non-system message sits strictly later in the original order than every
evicted one. -/
theorem trim_fifo_suffix (enc : String → Nat) (B : Nat) (h : Message) (t : List Message) :
    ∃ k, k ≤ t.length
      ∧ (trimMessagesByTokenBudget enc (h :: t) B).1 = h :: t.drop k
      ∧ t.take k ++ t.drop k = t := by
  by_cases hc : countTokensForMessagesArray enc (h :: t) ≤ B
  · exact ⟨0, by simp, by simp [trimMessagesByTokenBudget, hc], by simp⟩
  · obtain ⟨k, hk, hres⟩ :=
      trimLoop_suffix enc B h t (countTokensForMessagesArray enc (h :: t))
    exact ⟨k, hk, by simp [trimMessagesByTokenBudget, hc, hres],
      List.take_append_drop k t⟩

/-- C10: trimming an empty (or missing) message list returns the seeded
single-system-message list reported with the content-only estimate of the
system prompt, which is exactly 6 below countTokensForMessagesArray of
the returned list (the per-message +4 and per-conversation +2 overheads
are skipped in this branch only). -/
theorem trim_empty_seeds (enc : String → Nat) (B : Nat) :
    trimMessagesByTokenBudget enc ([] : List Message) B
        = ([⟨Role.system, SYSTEM_PROMPT, none⟩], countTokensForContent enc SYSTEM_PROMPT)
    ∧ (trimMessagesByTokenBudget enc ([] : List Message) B).2 + 6
        = countTokensForMessagesArray enc
            (trimMessagesByTokenBudget enc ([] : List Message) B).1 := by
  have hsp : SYSTEM_PROMPT ≠ "" := by decide
  refine ⟨rfl, ?_⟩
  simp [trimMessagesByTokenBudget, countTokensForMessagesArray,
    countTokensForContent, hsp]

/- ------------------ helper lemmas on the document store ------------------ -/

/-- Merge-save never touches the usage counter field. -/
theorem save_usage_frame (uid : String) (h : List Message) (tt now : Nat) (fs : FireStore) :
    ((saveUserHistory uid h tt now fs) uid).bind (fun d => d.token_usage)
      = (fs uid).bind (fun d => d.token_usage) := by
  simp [saveUserHistory, updFS]

/-- The usage transaction never touches the history field. -/
theorem addUsage_history_frame (uid : String) (dl now : Nat) (fs : FireStore) :
    ((addUserTokenUsage uid dl now fs) uid).bind (fun d => d.history)
      = (fs uid).bind (fun d => d.history) := by
  simp [addUserTokenUsage, updFS]

/-- One usage transaction adds exactly its delta to the counter. -/
theorem getUsage_addUsage (uid : String) (dl now : Nat) (fs : FireStore) :
    getUsage (addUserTokenUsage uid dl now fs) uid = getUsage fs uid + dl := by
  simp [getUsage, addUserTokenUsage, updFS]

/-- Authenticated buildConversation over an existing document reduces to
a pure computation returning the state unchanged. -/
theorem build_auth_eq (enc : String → Nat) (maxTok : Nat) (uid msg : String) (now : Nat)
    (st : SrvState) (d : FireDoc) (huid : uid ≠ "") (hd : st.fs uid = some d) :
    buildConversation enc maxTok (some uid) true msg now st
      = (st,
          let r := trimMessagesByTokenBudget enc
            (((d.history.getD [⟨Role.system, SYSTEM_PROMPT, none⟩]).map
                (fun h => (⟨h.role, h.content, some (jsOrNat h.ts now)⟩ : Message)))
              ++ [⟨Role.user, msg, some now⟩]) maxTok
          ⟨r.1, r.2, PersistTarget.firestore, some uid⟩) := by
  simp [buildConversation, isAuthed, huid, loadUserHistory, hd]

/- ------------------ claim theorems on stores and handlers ------------------ -/

/-- C4: any serialization of a set of addUsage transactions (Firestore's
runTransaction makes each read-modify-write atomic, so every concurrent
execution is equivalent to some serialization order, here an arbitrary
list of delta/timestamp pairs) leaves the counter at its initial value
plus the sum of the deltas — no increment is lost. -/
theorem addUsage_no_lost_updates (uid : String) (ops : List (Nat × Nat)) (init : FireStore) :
    getUsage (ops.foldl (fun fs op => addUserTokenUsage uid op.1 op.2 fs) init) uid
      = getUsage init uid + (ops.map Prod.fst).sum := by
  induction ops generalizing init with
  | nil => simp
  | cons op rest ih =>
    simp only [List.foldl_cons, List.map_cons, List.sum_cons]
    rw [ih, getUsage_addUsage]
    omega

/-- C5 counterexample: buildConversation is not write-free — on the
session path it stores the appended-and-trimmed history back into the
session, so the session state after the call differs from before. -/
theorem build_session_write_cex :
    ((buildConversation encOne 3000 none false "Mhoro" 5 anonState).1).session
      ≠ anonState.session := by
  simp [buildConversation, isAuthed, anonState, ensureAnonHistory]

/-- C5 amended: the durable path of buildConversation performs no write
at all when the user's document already exists (the only durable write is
the lazy seed inside load on first access) and never touches the session;
the session path never touches the durable store but does write the
trimmed result and its token count into the session store. -/
theorem build_effects (enc : String → Nat) (maxTok : Nat) (uid msg : String) (now : Nat)
    (st : SrvState) (d : FireDoc) (huid : uid ≠ "") (hd : st.fs uid = some d) :
    (buildConversation enc maxTok (some uid) true msg now st).1 = st
    ∧ ((buildConversation enc maxTok none true msg now st).1).fs = st.fs
    ∧ ((buildConversation enc maxTok none true msg now st).1).session
        = ⟨some (buildConversation enc maxTok none true msg now st).2.messages,
            some (buildConversation enc maxTok none true msg now st).2.totalTokens⟩ := by
  refine ⟨?_, ?_, ?_⟩
  · rw [build_auth_eq enc maxTok uid msg now st d huid hd]
  · simp [buildConversation, isAuthed]
  · simp [buildConversation, isAuthed]

/-- Witness for build_effects at a concrete state with an existing doc. -/
theorem build_effects_wit :
    (buildConversation encOne 3000 (some "u") true "Mhoro" 5 cexState).1 = cexState :=
  (build_effects encOne 3000 "u" "Mhoro" 5 cexState cexDoc (by decide) (by decide)).1

/-- C8: the authenticated reset overwrites the stored history with the
seed (the single system message, stamped at reset time, together with its
content token count) and leaves the token_usage field exactly as it was
before the reset. -/
theorem reset_preserves_usage (enc : String → Nat) (uid : String) (now : Nat)
    (st : SrvState) (huid : uid ≠ "") :
    (((resetHandler enc (some uid) true now st).1).fs uid).bind (fun d => d.token_usage)
        = (st.fs uid).bind (fun d => d.token_usage)
    ∧ (((resetHandler enc (some uid) true now st).1).fs uid).bind (fun d => d.history)
        = some [⟨Role.system, SYSTEM_PROMPT, some now⟩]
    ∧ (((resetHandler enc (some uid) true now st).1).fs uid).bind (fun d => d.total_tokens)
        = some (countTokensForContent enc SYSTEM_PROMPT) := by
  refine ⟨?_, ?_, ?_⟩ <;>
    simp [resetHandler, isAuthed, huid, saveUserHistory, updFS, jsOrNat]

/-- Witness for reset_preserves_usage at a concrete stored document. -/
theorem reset_preserves_usage_wit :
    ((resetHandler encOne (some "u") true 5 cexState).1.fs "u").bind (fun d => d.token_usage)
        = (cexState.fs "u").bind (fun d => d.token_usage)
    ∧ ((resetHandler encOne (some "u") true 5 cexState).1.fs "u").bind (fun d => d.history)
        = some [⟨Role.system, SYSTEM_PROMPT, some 5⟩]
    ∧ ((resetHandler encOne (some "u") true 5 cexState).1.fs "u").bind (fun d => d.total_tokens)
        = some (countTokensForContent encOne SYSTEM_PROMPT) :=
  reset_preserves_usage encOne "u" 5 cexState (by decide)

/-- C9: a request body whose message field is present and truthy but not
a string makes .trim() throw inside the try block, so the handler answers
500 with error 'Failed to process chat' instead of the 400 validation
error reserved for missing or empty messages. -/
theorem chat_nonstring_message_500 (enc : String → Nat) (maxTok : Nat) (eff : ChatEffects)
    (user : Option String) (hasFS : Bool) (v : JValue) (now : Nat) (st : SrvState)
    (htru : jsTruthy v = true) (hstr : isJStr v = false) :
    (chatHandler enc maxTok eff user hasFS (some v) now st).2
      = ⟨500, some "Failed to process chat", none⟩ := by
  cases v with
  | jnull => simp [jsTruthy] at htru
  | jbool b =>
    simp only [jsTruthy] at htru
    subst htru
    rfl
  | jnum n =>
    have hn : ¬ n = 0 := by simpa [jsTruthy] using htru
    simp [chatHandler, extractMessage, jsTruthy, hn]
  | jstr s => simp [isJStr] at hstr
  | jobj => rfl
  | jarr => rfl

/-- Witness for chat_nonstring_message_500 at message = 5. -/
theorem chat_nonstring_message_500_wit :
    (chatHandler encOne 3000 ⟨Except.ok (some "hi"), true, true⟩ none false
        (some (JValue.jnum 5)) 5 anonState).2
      = ⟨500, some "Failed to process chat", none⟩ :=
  chat_nonstring_message_500 encOne 3000 ⟨Except.ok (some "hi"), true, true⟩ none false
    (JValue.jnum 5) 5 anonState (by decide) (by decide)

/-- C3 counterexample: a valid authenticated chat request over an
existing document, with a successful completion and save but a failing
usage increment, answers 500 (a persistence step failed) with the stored
history changed while the usage counter is not — persistence is not
all-or-nothing as the claim states. -/
theorem chat_partial_persistence_cex :
    ((chatHandler encOne 3000 ⟨Except.ok (some "hi"), true, false⟩ (some "u") true
        (some (JValue.jstr "Mhoro")) 5 cexState).2).status = 500
    ∧ (((chatHandler encOne 3000 ⟨Except.ok (some "hi"), true, false⟩ (some "u") true
        (some (JValue.jstr "Mhoro")) 5 cexState).1).fs "u").bind (fun x => x.history)
      ≠ (cexState.fs "u").bind (fun x => x.history)
    ∧ (((chatHandler encOne 3000 ⟨Except.ok (some "hi"), true, false⟩ (some "u") true
        (some (JValue.jstr "Mhoro")) 5 cexState).1).fs "u").bind (fun x => x.token_usage)
      = (cexState.fs "u").bind (fun x => x.token_usage) := by
  refine ⟨by decide, by decide, by decide⟩

/-- C3 amended: persistence in the authenticated chat flow is sequential,
not atomic. Over an existing document: if the completion fails, or the
history save fails, the state is completely unchanged (neither history
nor usage moves); but if the save succeeds and only the usage increment
fails, the request still answers 500 while the saved history persists
(it equals the history of the fully successful run) and the usage counter
alone stays at its prior value. -/
theorem chat_persistence_sequential (enc : String → Nat) (maxTok : Nat) (eff : ChatEffects)
    (uid : String) (body : Option JValue) (m : String) (now : Nat) (st : SrvState)
    (d : FireDoc) (huid : uid ≠ "") (hd : st.fs uid = some d)
    (hm : extractMessage body = Except.ok m) (hne : m ≠ "") :
    (∀ e, eff.completion = Except.error e →
        (chatHandler enc maxTok eff (some uid) true body now st).1 = st)
    ∧ (eff.saveOk = false →
        (chatHandler enc maxTok eff (some uid) true body now st).1 = st)
    ∧ (∀ c, eff.completion = Except.ok c → eff.saveOk = true → eff.addUsageOk = false →
        ((chatHandler enc maxTok eff (some uid) true body now st).2.status = 500
        ∧ (((chatHandler enc maxTok eff (some uid) true body now st).1).fs uid).bind
              (fun x => x.token_usage) = d.token_usage
        ∧ (((chatHandler enc maxTok eff (some uid) true body now st).1).fs uid).bind
              (fun x => x.history)
            = (((chatHandler enc maxTok ⟨Except.ok c, true, true⟩ (some uid) true body
                  now st).1).fs uid).bind (fun x => x.history))) := by
  refine ⟨?_, ?_, ?_⟩
  · intro e hc
    simp [chatHandler, hm, hne, hc, build_auth_eq enc maxTok uid m now st d huid hd]
  · intro hs
    cases hcompl : eff.completion with
    | error e =>
      simp [chatHandler, hm, hne, hcompl, build_auth_eq enc maxTok uid m now st d huid hd]
    | ok c =>
      simp [chatHandler, hm, hne, hcompl, hs, huid,
        build_auth_eq enc maxTok uid m now st d huid hd,
        chatPersistFirestore, loadUserHistory, hd]
  · intro c hc hs ha
    refine ⟨?_, ?_, ?_⟩
    · simp [chatHandler, hm, hne, hc, hs, ha, huid,
        build_auth_eq enc maxTok uid m now st d huid hd,
        chatPersistFirestore, loadUserHistory, hd]
    · simp [chatHandler, hm, hne, hc, hs, ha, huid,
        build_auth_eq enc maxTok uid m now st d huid hd,
        chatPersistFirestore, loadUserHistory, hd, save_usage_frame]
    · simp [chatHandler, hm, hne, hc, hs, ha, huid,
        build_auth_eq enc maxTok uid m now st d huid hd,
        chatPersistFirestore, loadUserHistory, hd, addUsage_history_frame]

/-- Witness for chat_persistence_sequential: with a failing save the
whole state is unchanged. -/
theorem chat_persistence_sequential_wit :
    (chatHandler encOne 3000 ⟨Except.ok (some "hi"), false, true⟩ (some "u") true
        (some (JValue.jstr "Mhoro")) 5 cexState).1 = cexState :=
  (chat_persistence_sequential encOne 3000 ⟨Except.ok (some "hi"), false, true⟩ "u"
      (some (JValue.jstr "Mhoro")) "Mhoro" 5 cexState cexDoc (by decide) (by decide)
      rfl (by decide)).2.1 rfl
